import Mathlib

/-!
Verification of the extraction pipeline in `Scraping1975PacHurricanes.py`.

The script fetches one Wikipedia page, walks its `h3` headings, and for each
heading whose text (with the "[edit]" marker removed) contains "hurricane" or
"storm" (case-insensitively) appends one row to five parallel accumulator
lists.  The development below is a shallow embedding of that pipeline:

* the three regular expressions of the script (`date_pattern`,
  `death_number_pattern`, and the proper-noun pattern used by
  `extract_affected_areas`) are modelled as executable character-list
  matchers with Python `re.search` / `re.findall` semantics restricted to
  the concrete patterns (for each of these patterns, greedy matching without
  backtracking coincides with Python's backtracking semantics, because every
  sub-pattern's character class is disjoint from the character required next);
* the parsed HTML is modelled at the granularity the script navigates it:
  a heading carries its text, the result of `find_next("table", class
  "infobox")` reduced to its `th`/`td` rows, and the chain of
  `find_next_sibling()` tags, each a tag name plus flattened text;
* `process_hurricane` and the top-level heading loop are translated
  line by line.

ASCII note: Python's `\w`, `\d`, `\s`, `str.lower()` and `re.IGNORECASE` are
modelled on their ASCII subsets, which is faithful for every string handled
by the claims.
-/

set_option autoImplicit false

namespace Scrape1975

/-! ### Character classes and small string helpers -/

/-- Characters matched by Python's regex class `\s` (ASCII subset:
space, tab, newline, carriage return, vertical tab, form feed). -/
def isPySpace (c : Char) : Bool :=
  c = ' ' || c = '\t' || c = '\n' || c = '\r' || c = Char.ofNat 11 || c = Char.ofNat 12

/-- Characters matched by Python's regex class `\w` (ASCII subset:
letters, digits, underscore). -/
def isWordChar (c : Char) : Bool :=
  c.isAlpha || c.isDigit || c = '_'

/-- Characters in the regex class `[A-Z]`. -/
def isUpperAZ (c : Char) : Bool :=
  'A' ≤ c && c ≤ 'Z'

/-- Characters in the regex class `[a-z]`. -/
def isLowerAZ (c : Char) : Bool :=
  'a' ≤ c && c ≤ 'z'

/-- Python `text.lower()` as a character list (ASCII case folding). -/
def lower_chars (s : String) : List Char :=
  s.toList.map Char.toLower

/-- Python's substring test `needle in hay` on character lists. -/
def substr : List Char → List Char → Bool
  | needle, [] => needle.isEmpty
  | needle, c :: rest => needle.isPrefixOf (c :: rest) || substr needle rest

/-- Python `hay.replace(needle, repl)`: scan left to right, replace each
non-overlapping occurrence and continue after it.  `fuel` bounds the scan by
the length of the haystack, which is consumed by at least one character per
step. -/
def py_replace_aux (needle repl : List Char) : Nat → List Char → List Char
  | 0, l => l
  | _ + 1, [] => []
  | fuel + 1, c :: rest =>
    if needle.isPrefixOf (c :: rest) && !needle.isEmpty then
      repl ++ py_replace_aux needle repl fuel (List.drop (needle.length - 1) rest)
    else
      c :: py_replace_aux needle repl fuel rest

/-- Python `s.replace(needle, repl)` on strings. -/
def py_replace (s needle repl : String) : String :=
  String.mk (py_replace_aux needle.toList repl.toList s.toList.length s.toList)

/-- Drop the leading run of `\s` characters (the greedy `\s*`). -/
def skip_spaces : List Char → List Char
  | [] => []
  | c :: rest => if isPySpace c then skip_spaces rest else c :: rest

/-! ### The death-count pattern (source line 31)

`death_number_pattern = (?:killed|caused|fatalities|deaths|killing)\s*(\d+)
 \s*(?:people|fatalities|deaths|persons)?` with `re.IGNORECASE`; only
group 1 is ever read, so the optional trailing noun group is irrelevant. -/

/-- The verb alternatives of `death_number_pattern`, in source order. -/
def death_verbs : List (List Char) :=
  [String.toList "killed", String.toList "caused", String.toList "fatalities",
   String.toList "deaths", String.toList "killing"]

/-- Case-insensitive prefix match of a (lower-case) pattern against text. -/
def ciPrefixOf : List Char → List Char → Bool
  | [], _ => true
  | _ :: _, [] => false
  | p :: ps, c :: cs => (Char.toLower c = Char.toLower p) && ciPrefixOf ps cs

/-- `re.search` of `death_number_pattern`: at each position, in order, try a
verb alternative; on a hit, skip `\s*` and take the greedy `\d+`; if the
digit group is empty the position fails and the scan moves right.  (No two
alternatives can match at the same position, and shortening `\s*` or `\d+`
can never help, so this is exactly Python's leftmost-match search.) -/
def death_search_aux : List Char → Option String
  | [] => none
  | c :: rest =>
    match death_verbs.find? (fun v => ciPrefixOf v (c :: rest)) with
    | some v =>
      let digits := (skip_spaces (List.drop v.length (c :: rest))).takeWhile Char.isDigit
      if digits.isEmpty then death_search_aux rest else some (String.mk digits)
    | none => death_search_aux rest

/-- `death_number_pattern.search(text)`, returning group 1. -/
def death_number_pattern_search (text : String) : Option String :=
  death_search_aux text.toList

/-! ### The date-range pattern (source line 30)

`date_pattern = (\w+ \d+)\s*[–-]\s*(\w+ \d+)`; on a match the two captured
groups become the start and end date. -/

/-- Match `(\w+ \d+)\s*[–-]\s*(\w+ \d+)` anchored at the head of the list,
returning the two captured groups. -/
def date_match_at (l : List Char) : Option (String × String) :=
  let w1 := l.takeWhile isWordChar
  if w1.isEmpty then none else
  match List.drop w1.length l with
  | ' ' :: r2 =>
    let d1 := r2.takeWhile Char.isDigit
    if d1.isEmpty then none else
    match skip_spaces (List.drop d1.length r2) with
    | c :: r4 =>
      if c = '–' || c = '-' then
        let r5 := skip_spaces r4
        let w2 := r5.takeWhile isWordChar
        if w2.isEmpty then none else
        match List.drop w2.length r5 with
        | ' ' :: r6 =>
          let d2 := r6.takeWhile Char.isDigit
          if d2.isEmpty then none else
          some (String.mk (w1 ++ ' ' :: d1), String.mk (w2 ++ ' ' :: d2))
        | _ => none
      else none
    | [] => none
  | _ => none

/-- Leftmost-position scan for `date_pattern`. -/
def date_search_aux : List Char → Option (String × String)
  | [] => none
  | c :: rest =>
    match date_match_at (c :: rest) with
    | some r => some r
    | none => date_search_aux rest

/-- `date_pattern.search(text)`, returning the pair of captured groups. -/
def date_pattern_search (text : String) : Option (String × String) :=
  date_search_aux text.toList

/-! ### The proper-noun pattern (source line 36)

`re.findall(r'[A-Z][a-z]+(?: [A-Z][a-z]+)*', text)`: non-overlapping,
leftmost, greedy matches. -/

/-- Match one `[A-Z][a-z]+` token at the head of the list, returning the
token and the remainder. -/
def loc_token_at : List Char → Option (List Char × List Char)
  | [] => none
  | c :: rest =>
    if isUpperAZ c then
      let low := rest.takeWhile isLowerAZ
      if low.isEmpty then none else some (c :: low, List.drop low.length rest)
    else none

/-- Greedy iteration of `(?: [A-Z][a-z]+)*` after an initial token; each
iteration consumes at least three characters, so the remaining length is
enough fuel. -/
def loc_extend : Nat → List Char → List Char → List Char × List Char
  | 0, acc, l => (acc, l)
  | fuel + 1, acc, ' ' :: rest =>
    match loc_token_at rest with
    | some (tok, r2) => loc_extend fuel (acc ++ ' ' :: tok) r2
    | none => (acc, ' ' :: rest)
  | _ + 1, acc, l => (acc, l)

/-- Scan for all non-overlapping matches, continuing after each match; every
step consumes at least one character, so the initial length is enough fuel. -/
def findall_locations_aux : Nat → List Char → List String
  | 0, _ => []
  | _ + 1, [] => []
  | fuel + 1, c :: rest =>
    match loc_token_at (c :: rest) with
    | some (tok, r1) =>
      let e := loc_extend r1.length tok r1
      String.mk e.1 :: findall_locations_aux fuel e.2
    | none => findall_locations_aux fuel rest

/-- `re.findall(r'[A-Z][a-z]+(?: [A-Z][a-z]+)*', text)`. -/
def findall_locations (text : String) : List String :=
  findall_locations_aux text.toList.length text.toList

/-! ### `extract_affected_areas` (source lines 34-38) -/

/-- The fixed keyword list of `extract_affected_areas` (line 35). -/
def affected_keywords : List String :=
  ["landfall", "affected", "hit", "struck", "damaged", "moved through", "impacted"]

/-- Python's `any(keyword in text.lower() for keyword in affected_keywords)`:
this test mentions only the whole paragraph text, not an individual match. -/
def any_affected_keyword (text : String) : Bool :=
  affected_keywords.any (fun keyword => substr keyword.toList (lower_chars text))

/-- Source lines 34-38: collect the proper-noun matches, filter them by the
paragraph-level keyword test, and fall back to the raw matches when the
filtered list is empty (`return relevant_locations if relevant_locations
else locations`). -/
def extract_affected_areas (text : String) : List String :=
  let locations := findall_locations text
  let relevant_locations := locations.filter (fun _loc => any_affected_keyword text)
  if relevant_locations.isEmpty then locations else relevant_locations

/-! ### Data model of the parsed page

The script navigates the BeautifulSoup tree through a fixed set of calls;
the model records, for each `h3` heading returned by `soup.find_all("h3")`:
the heading's `get_text(strip=True)`, the result of
`heading.find_next("table", class "infobox")` reduced to its rows (each a
`th` whose exact string is the row label, paired with the text of its
`find_next_sibling("td")` when present), and the chain of
`find_next_sibling()` tags following the heading, each with its tag name and
its flattened text `" ".join(stripped_strings)`. -/

/-- One tag in the `find_next_sibling()` chain after a heading. -/
structure SibNode where
  name : String
  text : String

/-- One label row of an infobox: the `th` string and, when the `th` has a
following `td` sibling, that cell's stripped text. -/
structure InfRow where
  th : String
  td : Option String

/-- The infobox table reached by `find_next("table", class "infobox")`,
reduced to its label rows in document order. -/
structure Infobox where
  rows : List InfRow

/-- One `h3` heading of the document together with the parts of the tree the
script reads from it. -/
structure Heading where
  headingText : String
  infobox : Option Infobox
  siblings : List SibNode

/-- Source line 51: `heading.get_text(strip=True).replace("[edit]", "")`. -/
def hurricane_name_of (heading : Heading) : String :=
  py_replace heading.headingText "[edit]" ""

/-- Source lines 102 and 120: the case-insensitive substring tests on the
computed name. -/
def contains_olivia (hurricane_name : String) : Bool :=
  substr (String.toList "olivia") (lower_chars hurricane_name)

/-- Source line 120: `"hurricane" in name.lower() or "storm" in name.lower()`. -/
def storm_heading_filter (hurricane_name : String) : Bool :=
  substr (String.toList "hurricane") (lower_chars hurricane_name) ||
    substr (String.toList "storm") (lower_chars hurricane_name)

/-! ### The record extractor `process_hurricane` (source lines 50-112) -/

/-- Source lines 60-66: `heading.find_next("table", class "infobox")`, then
`infobox.find("th", text="Duration")` (first `th` whose string is exactly
`"Duration"`, a case-sensitive literal match), then
`duration_row.find_next_sibling("td")` and its stripped text. -/
def duration_text_of (heading : Heading) : Option String :=
  match heading.infobox with
  | none => none
  | some infobox =>
    match infobox.rows.find? (fun row => row.th = "Duration") with
    | none => none
    | some duration_row => duration_row.td

/-- Source lines 55 and 59-70: `date_start` and `date_end` are initialized to
`"-"` and overwritten with the two captured groups only when the whole chain
(infobox, `Duration` row, `td` cell, `date_pattern.search`) succeeds. -/
def extract_dates (heading : Heading) : String × String :=
  match duration_text_of heading with
  | none => ("-", "-")
  | some duration_text =>
    match date_pattern_search duration_text with
    | none => ("-", "-")
    | some date_parts => date_parts

/-- A sibling tag at which the walk of lines 73-99 stops:
`while sibling and sibling.name not in ["h3", "h4"]`. -/
def is_stop (sibling : SibNode) : Bool :=
  sibling.name = "h3" || sibling.name = "h4"

/-- A sibling tag processed by the walk body: `if sibling.name == "p"`. -/
def is_para (sibling : SibNode) : Bool :=
  sibling.name = "p"

/-- Source lines 73-99: walk the sibling chain until the first `h3` or `h4`
tag; on each `p` tag, overwrite the death count whenever
`death_number_pattern.search` matches, and extend the affected-areas list
with `extract_affected_areas` of the paragraph text when that list is
non-empty. -/
def walk_siblings : List SibNode → String → List String → String × List String
  | [], hurricane_deaths, hurricane_affected_areas =>
    (hurricane_deaths, hurricane_affected_areas)
  | sibling :: rest, hurricane_deaths, hurricane_affected_areas =>
    if is_stop sibling then (hurricane_deaths, hurricane_affected_areas)
    else if is_para sibling then
      let text := sibling.text
      let deaths' :=
        match death_number_pattern_search text with
        | some death_match => death_match
        | none => hurricane_deaths
      let locations := extract_affected_areas text
      let areas' :=
        if locations.isEmpty then hurricane_affected_areas
        else hurricane_affected_areas ++ locations
      walk_siblings rest deaths' areas'
    else walk_siblings rest hurricane_deaths hurricane_affected_areas

/-- The texts of the paragraphs the walk of lines 73-99 actually processes:
the `p` tags among the siblings before the first `h3` or `h4` tag. -/
def walked_texts (sibs : List SibNode) : List String :=
  ((sibs.takeWhile (fun s => !is_stop s)).filter is_para).map SibNode.text

/-- The row appended for one heading: the five values pushed onto the
parallel lists at source lines 108-112. -/
structure Row where
  hurricane_name : String
  date_start : String
  date_end : String
  hurricane_deaths : String
  affected_areas : String

/-- Source lines 50-107: compute the row for one heading.  The name is the
heading text with `"[edit]"` removed; the dates come from the infobox chain;
the deaths accumulator starts at `"0"` (line 56) and the areas accumulator
at `[]` (line 57) before the sibling walk; lines 102-104 overwrite deaths
and areas when the name contains `"olivia"` case-insensitively; line 107
joins the area list with `"; "`, or substitutes `"-"` when it is empty. -/
def makeRecord (heading : Heading) : Row :=
  let hurricane_name := hurricane_name_of heading
  let dates := extract_dates heading
  let walked := walk_siblings heading.siblings "0" []
  let hurricane_deaths :=
    if contains_olivia hurricane_name then "30" else walked.1
  let hurricane_affected_areas : List String :=
    if contains_olivia hurricane_name then ["Sinaloa, Mexico"] else walked.2
  let affected_areas :=
    if hurricane_affected_areas.isEmpty then "-"
    else String.intercalate "; " hurricane_affected_areas
  ⟨hurricane_name, dates.1, dates.2, hurricane_deaths, affected_areas⟩

/-! ### The accumulator state and the heading loop (source lines 22-27 and
108-121) -/

/-- The five parallel accumulator lists of source lines 23-27. -/
structure ScrapeState where
  hurricane_names : List String
  start_dates : List String
  end_dates : List String
  deaths : List String
  areas_affected : List String

/-- The empty accumulators the script starts from. -/
def initial_state : ScrapeState :=
  ⟨[], [], [], [], []⟩

/-- Source lines 108-112: append the five fields of the heading's row onto
the five accumulator lists. -/
def process_hurricane (heading : Heading) (st : ScrapeState) : ScrapeState :=
  let row := makeRecord heading
  { hurricane_names := st.hurricane_names ++ [row.hurricane_name]
    start_dates := st.start_dates ++ [row.date_start]
    end_dates := st.end_dates ++ [row.date_end]
    deaths := st.deaths ++ [row.hurricane_deaths]
    areas_affected := st.areas_affected ++ [row.affected_areas] }

/-- One iteration of the loop at source lines 118-121: recompute the name
from the heading and call `process_hurricane` only when it passes the
keyword filter. -/
def scrape_step (st : ScrapeState) (heading : Heading) : ScrapeState :=
  if storm_heading_filter (hurricane_name_of heading) then process_hurricane heading st
  else st

/-- Source lines 114-121: fold the loop body over `soup.find_all("h3")`. -/
def scrape_headings (headings : List Heading) : ScrapeState :=
  headings.foldl scrape_step initial_state

/-- The qualifying headings in document order. -/
def qualifying (headings : List Heading) : List Heading :=
  headings.filter (fun heading => storm_heading_filter (hurricane_name_of heading))

/-- A heading whose following content, as the script reaches it, has an
infobox containing a `Duration` label row. -/
def infobox_has_duration_row (heading : Heading) : Bool :=
  match heading.infobox with
  | none => false
  | some infobox => (infobox.rows.find? (fun row => row.th = "Duration")).isSome

/-! ### Helper lemmas -/

/-- Unfolding `walked_texts` at a stop tag. -/
theorem walked_texts_cons_stop (s : SibNode) (rest : List SibNode)
    (h : is_stop s = true) : walked_texts (s :: rest) = [] := by
  simp [walked_texts, List.takeWhile_cons, h]

/-- Unfolding `walked_texts` at a paragraph tag. -/
theorem walked_texts_cons_para (s : SibNode) (rest : List SibNode)
    (h1 : is_stop s = false) (h2 : is_para s = true) :
    walked_texts (s :: rest) = s.text :: walked_texts rest := by
  simp [walked_texts, List.takeWhile_cons, List.filter_cons, h1, h2]

/-- Unfolding `walked_texts` at any other tag. -/
theorem walked_texts_cons_other (s : SibNode) (rest : List SibNode)
    (h1 : is_stop s = false) (h2 : is_para s = false) :
    walked_texts (s :: rest) = walked_texts rest := by
  simp [walked_texts, List.takeWhile_cons, List.filter_cons, h1, h2]

/-- The death accumulator of the sibling walk is the last successful match
of `death_number_pattern` over the walked paragraph texts, or the incoming
value when no paragraph matches: each new match overwrites the previous
value (source lines 88-90). -/
theorem walk_deaths_last (sibs : List SibNode) :
    ∀ (d : String) (a : List String),
      (walk_siblings sibs d a).1 =
        ((walked_texts sibs).filterMap death_number_pattern_search).getLastD d := by
  induction sibs with
  | nil =>
    intro d a
    simp [walk_siblings, walked_texts]
  | cons sibling rest ih =>
    intro d a
    cases hstop : is_stop sibling with
    | true =>
      rw [walked_texts_cons_stop sibling rest hstop]
      simp [walk_siblings, hstop]
    | false =>
      cases hp : is_para sibling with
      | true =>
        rw [walked_texts_cons_para sibling rest hstop hp]
        rw [List.filterMap_cons]
        cases hf : death_number_pattern_search sibling.text with
        | some death_match =>
          simp only [walk_siblings, hstop, hp, hf, Bool.false_eq_true, if_false, if_true,
            List.getLastD_cons]
          exact ih death_match _
        | none =>
          simp only [walk_siblings, hstop, hp, hf, Bool.false_eq_true, if_false, if_true]
          exact ih d _
      | false =>
        rw [walked_texts_cons_other sibling rest hstop hp]
        simp only [walk_siblings, hstop, hp, Bool.false_eq_true, if_false]
        exact ih d a

/-- The keyword gate of `extract_affected_areas` filters with a predicate
that never mentions the individual match, so the filter keeps everything or
nothing. -/
theorem filter_keyword_gate (text : String) (l : List String) :
    l.filter (fun _loc => any_affected_keyword text) =
      if any_affected_keyword text then l else [] := by
  cases h : any_affected_keyword text with
  | true => simp [h]
  | false => simp [h]

/-- Unfolding the state fold of the heading loop: each qualifying heading
appends exactly its row's fields, in document order, to all five lists. -/
theorem scrape_fold_eq (headings : List Heading) :
    ∀ st : ScrapeState,
      headings.foldl scrape_step st =
        ⟨st.hurricane_names ++ (qualifying headings).map (fun h => (makeRecord h).hurricane_name),
         st.start_dates ++ (qualifying headings).map (fun h => (makeRecord h).date_start),
         st.end_dates ++ (qualifying headings).map (fun h => (makeRecord h).date_end),
         st.deaths ++ (qualifying headings).map (fun h => (makeRecord h).hurricane_deaths),
         st.areas_affected ++ (qualifying headings).map (fun h => (makeRecord h).affected_areas)⟩ := by
  induction headings with
  | nil =>
    intro st
    simp [qualifying]
  | cons heading rest ih =>
    intro st
    rw [List.foldl_cons]
    cases hq : storm_heading_filter (hurricane_name_of heading) with
    | true =>
      have hstep : scrape_step st heading = process_hurricane heading st := by
        simp [scrape_step, hq]
      rw [hstep, ih]
      simp [process_hurricane, qualifying, List.filter_cons, hq]
    | false =>
      have hstep : scrape_step st heading = st := by
        simp [scrape_step, hq]
      rw [hstep, ih]
      simp [qualifying, List.filter_cons, hq]

/-! ### The claims -/

/-- Claim C1: every `h3` heading whose text (with the `"[edit]"` marker
stripped) contains "hurricane" or "storm" case-insensitively yields exactly
one row, the rows appear in the same relative order as their headings, and
after the loop the five accumulator lists all have length equal to the
number of qualifying headings. -/
theorem claim_C1_one_row_per_qualifying_heading (headings : List Heading) :
    (scrape_headings headings).hurricane_names =
        (qualifying headings).map (fun h => (makeRecord h).hurricane_name) ∧
      (scrape_headings headings).hurricane_names.length = (qualifying headings).length ∧
      (scrape_headings headings).start_dates.length = (qualifying headings).length ∧
      (scrape_headings headings).end_dates.length = (qualifying headings).length ∧
      (scrape_headings headings).deaths.length = (qualifying headings).length ∧
      (scrape_headings headings).areas_affected.length = (qualifying headings).length := by
  unfold scrape_headings
  rw [scrape_fold_eq headings initial_state]
  simp [initial_state]

/-- Claim C2, counterexample: a section whose single walked paragraph has no
death-cue match produces the death count `"0"`, not the `"-"` sentinel the
claim states — line 56 of the source initializes `hurricane_deaths` to
`"0"`, unlike the `"-"` used for the dates and the empty area list. -/
theorem claim_C2_counterexample :
    walked_texts [⟨"p", "No damage was reported."⟩] = ["No damage was reported."] ∧
      death_number_pattern_search "No damage was reported." = none ∧
      (makeRecord ⟨"Tropical Storm Test", none,
        [⟨"p", "No damage was reported."⟩]⟩).hurricane_deaths = "0" ∧
      (makeRecord ⟨"Tropical Storm Test", none,
        [⟨"p", "No damage was reported."⟩]⟩).hurricane_deaths ≠ "-" := by
  refine ⟨rfl, rfl, rfl, ?_⟩
  decide

/-- Claim C2 as amended: for every section whose sibling walk contains no
paragraph matching the death-cue pattern, the produced row's death count is
the initial value `"0"` (not the `"-"` placeholder used for other absent
data), provided the Olivia override does not fire. -/
theorem claim_C2_amended (heading : Heading)
    (hnodeath : (walked_texts heading.siblings).all
      (fun t => (death_number_pattern_search t).isNone) = true)
    (holivia : contains_olivia (hurricane_name_of heading) = false) :
    (makeRecord heading).hurricane_deaths = "0" := by
  have hnil : (walked_texts heading.siblings).filterMap death_number_pattern_search = [] := by
    refine List.filterMap_eq_nil_iff.mpr ?_
    intro t ht
    have := List.all_eq_true.mp hnodeath t ht
    exact Option.isNone_iff_eq_none.mp this
  have hwalk := walk_deaths_last heading.siblings "0" []
  rw [hnil] at hwalk
  simp [makeRecord, holivia, hwalk]

/-- Claim C2 as amended, witness at a concrete section. -/
theorem claim_C2_amended_witness :
    (walked_texts ([⟨"p", "No damage was reported."⟩] : List SibNode)).all
        (fun t => (death_number_pattern_search t).isNone) = true ∧
      contains_olivia (hurricane_name_of ⟨"Tropical Storm Test", none,
        [⟨"p", "No damage was reported."⟩]⟩) = false ∧
      (makeRecord ⟨"Tropical Storm Test", none,
        [⟨"p", "No damage was reported."⟩]⟩).hurricane_deaths = "0" :=
  ⟨by decide, by decide,
    claim_C2_amended ⟨"Tropical Storm Test", none, [⟨"p", "No damage was reported."⟩]⟩
      (by decide) (by decide)⟩

/-- Claim C3: a section whose reachable infobox chain has no infobox with a
`Duration` row — in particular a section with no infobox at all — keeps the
placeholder `"-"` for both dates. -/
theorem claim_C3_no_duration_dates_placeholder (heading : Heading)
    (hno : infobox_has_duration_row heading = false) :
    (makeRecord heading).date_start = "-" ∧ (makeRecord heading).date_end = "-" := by
  have hdt : duration_text_of heading = none := by
    cases hib : heading.infobox with
    | none => simp [duration_text_of, hib]
    | some infobox =>
      cases hf : infobox.rows.find? (fun row => row.th = "Duration") with
      | none => simp [duration_text_of, hib, hf]
      | some duration_row =>
        exfalso
        simp [infobox_has_duration_row, hib, hf] at hno
  simp [makeRecord, extract_dates, hdt]

/-- Claim C3, witness: a section with no infobox at all. -/
theorem claim_C3_witness :
    infobox_has_duration_row ⟨"Hurricane Test", none, []⟩ = false ∧
      (makeRecord ⟨"Hurricane Test", none, []⟩).date_start = "-" ∧
      (makeRecord ⟨"Hurricane Test", none, []⟩).date_end = "-" :=
  ⟨rfl,
    (claim_C3_no_duration_dates_placeholder ⟨"Hurricane Test", none, []⟩ rfl).1,
    (claim_C3_no_duration_dates_placeholder ⟨"Hurricane Test", none, []⟩ rfl).2⟩

/-- Claim C4, counterexample: an `h3` sibling IS a stop point.  A paragraph
whose text yields death count `"7"` when walked on its own is never scanned
when it follows an `h3` sibling: the walked-paragraph list is empty and the
death count stays `"0"`, refuting the claim that the walk stops only at
`h4` headings. -/
theorem claim_C4_counterexample :
    (walk_siblings [⟨"h3", "Hurricane Next"⟩,
        ⟨"p", "The storm killed 7 people."⟩] "0" []).1 = "0" ∧
      (walk_siblings [⟨"p", "The storm killed 7 people."⟩] "0" []).1 = "7" ∧
      walked_texts [⟨"h3", "Hurricane Next"⟩, ⟨"p", "The storm killed 7 people."⟩] = [] := by
  refine ⟨rfl, rfl, rfl⟩

/-- Claim C4 as amended: the sibling walk stops at the first sibling whose
tag is `h3` or `h4` — same-level `h3` headings are stop points just like
`h4` headings — so every sibling after that point is ignored. -/
theorem claim_C4_amended (pre : List SibNode) (s : SibNode) (rest : List SibNode)
    (hpre : pre.all (fun x => !is_stop x) = true)
    (hs : is_stop s = true) :
    ∀ (d : String) (a : List String),
      walk_siblings (pre ++ s :: rest) d a = walk_siblings pre d a := by
  induction pre with
  | nil =>
    intro d a
    simp [walk_siblings, hs]
  | cons x pre' ih =>
    intro d a
    rw [List.all_cons] at hpre
    have hx : is_stop x = false := by
      cases hstop : is_stop x with
      | true => rw [hstop] at hpre; simp at hpre
      | false => rfl
    have hpre' : pre'.all (fun x => !is_stop x) = true := by
      rw [hx] at hpre
      simpa using hpre
    cases hp : is_para x with
    | true =>
      simp only [List.cons_append, walk_siblings, hx, hp, Bool.false_eq_true, if_false, if_true]
      exact ih hpre' _ _
    | false =>
      simp only [List.cons_append, walk_siblings, hx, hp, Bool.false_eq_true, if_false]
      exact ih hpre' _ _

/-- Claim C4 as amended, witness: a walk over one paragraph, then an `h3`,
then another paragraph equals the walk over the first paragraph alone. -/
theorem claim_C4_amended_witness :
    ([⟨"p", "Rain fell."⟩] : List SibNode).all (fun x => !is_stop x) = true ∧
      is_stop ⟨"h3", "Hurricane Next"⟩ = true ∧
      walk_siblings ([⟨"p", "Rain fell."⟩] ++ ⟨"h3", "Hurricane Next"⟩ ::
          [⟨"p", "The storm killed 7 people."⟩]) "0" [] =
        walk_siblings [⟨"p", "Rain fell."⟩] "0" [] :=
  ⟨by decide, by decide,
    claim_C4_amended [⟨"p", "Rain fell."⟩] ⟨"h3", "Hurricane Next"⟩
      [⟨"p", "The storm killed 7 people."⟩] (by decide) (by decide) "0" []⟩

/-- Claim C5: the death count produced by the sibling walk is the match from
the last matching walked paragraph (each new match overwrites the previous
value, and the initial value survives only when no paragraph matches), and
on the paragraph "The storm killed 15 people in Sinaloa." the pattern
captures `"15"`. -/
theorem claim_C5_last_match_wins :
    (∀ (sibs : List SibNode) (d : String) (a : List String),
        (walk_siblings sibs d a).1 =
          ((walked_texts sibs).filterMap death_number_pattern_search).getLastD d) ∧
      death_number_pattern_search "The storm killed 15 people in Sinaloa." = some "15" :=
  ⟨fun sibs d a => walk_deaths_last sibs d a, by decide⟩

/-- Claim C6: when the computed section name contains "olivia"
case-insensitively, the produced row has death count `"30"` and affected
areas exactly `"Sinaloa, Mexico"` (the single-element list joined), whatever
the date extraction and sibling walk produced. -/
theorem claim_C6_olivia_override (heading : Heading)
    (holivia : contains_olivia (hurricane_name_of heading) = true) :
    (makeRecord heading).hurricane_deaths = "30" ∧
      (makeRecord heading).affected_areas = "Sinaloa, Mexico" := by
  constructor
  · simp [makeRecord, holivia]
  · simp [makeRecord, holivia]
    decide

/-- Claim C6, witness: the literal "Hurricane Olivia" heading with
contradicting surrounding text. -/
theorem claim_C6_witness :
    contains_olivia (hurricane_name_of ⟨"Hurricane Olivia[edit]", none,
        [⟨"p", "The storm killed 15 people in Sinaloa."⟩]⟩) = true ∧
      (makeRecord ⟨"Hurricane Olivia[edit]", none,
        [⟨"p", "The storm killed 15 people in Sinaloa."⟩]⟩).hurricane_deaths = "30" ∧
      (makeRecord ⟨"Hurricane Olivia[edit]", none,
        [⟨"p", "The storm killed 15 people in Sinaloa."⟩]⟩).affected_areas = "Sinaloa, Mexico" :=
  ⟨by decide,
    (claim_C6_olivia_override ⟨"Hurricane Olivia[edit]", none,
      [⟨"p", "The storm killed 15 people in Sinaloa."⟩]⟩ (by decide)).1,
    (claim_C6_olivia_override ⟨"Hurricane Olivia[edit]", none,
      [⟨"p", "The storm killed 15 people in Sinaloa."⟩]⟩ (by decide)).2⟩

/-- Claim C7, counterexample: a `Duration` cell whose text merely CONTAINS
"August 12 – August 18" need not yield those dates — on the cell text
"xAugust 12 – August 18" the leftmost greedy `\w+` group captures
`"xAugust 12"`, so the start date differs from `"August 12"`. -/
theorem claim_C7_counterexample :
    substr (String.toList "August 12 – August 18")
        (String.toList "xAugust 12 – August 18") = true ∧
      (makeRecord ⟨"Hurricane Test", some ⟨[⟨"Duration", some "xAugust 12 – August 18"⟩]⟩,
        []⟩).date_start = "xAugust 12" ∧
      (makeRecord ⟨"Hurricane Test", some ⟨[⟨"Duration", some "xAugust 12 – August 18"⟩]⟩,
        []⟩).date_start ≠ "August 12" := by
  refine ⟨by decide, rfl, by decide⟩

/-- Claim C7 as amended: when the first row whose label cell is exactly
`"Duration"` (case-sensitive literal match) has a data cell whose text reads
exactly "August 12 – August 18", the date-range pattern yields start date
"August 12" and end date "August 18". -/
theorem claim_C7_amended (heading : Heading) (infobox : Infobox) (duration_row : InfRow)
    (hib : heading.infobox = some infobox)
    (hrow : infobox.rows.find? (fun row => row.th = "Duration") = some duration_row)
    (htd : duration_row.td = some "August 12 – August 18") :
    (makeRecord heading).date_start = "August 12" ∧
      (makeRecord heading).date_end = "August 18" := by
  have hdt : duration_text_of heading = some "August 12 – August 18" := by
    simp [duration_text_of, hib, hrow, htd]
  have hsearch : date_pattern_search "August 12 – August 18" =
      some ("August 12", "August 18") := by decide
  simp [makeRecord, extract_dates, hdt, hsearch]

/-- Claim C7 as amended, witness at a concrete infobox. -/
theorem claim_C7_amended_witness :
    (makeRecord ⟨"Hurricane Doreen", some ⟨[⟨"Duration", some "August 12 – August 18"⟩]⟩,
        []⟩).date_start = "August 12" ∧
      (makeRecord ⟨"Hurricane Doreen", some ⟨[⟨"Duration", some "August 12 – August 18"⟩]⟩,
        []⟩).date_end = "August 18" :=
  claim_C7_amended ⟨"Hurricane Doreen", some ⟨[⟨"Duration", some "August 12 – August 18"⟩]⟩, []⟩
    ⟨[⟨"Duration", some "August 12 – August 18"⟩]⟩
    ⟨"Duration", some "August 12 – August 18"⟩ rfl rfl rfl

/-- Claim C8: the keyword test of the area filter is paragraph-scoped, not
match-scoped — when any keyword occurs in the lowercased text all
proper-noun matches are kept, and when none occurs all raw proper-noun
matches are kept as the fallback. -/
theorem claim_C8_paragraph_scoped_gate (text : String) :
    (any_affected_keyword text = true →
        extract_affected_areas text = findall_locations text) ∧
      (any_affected_keyword text = false →
        extract_affected_areas text = findall_locations text) := by
  constructor
  · intro h
    simp [extract_affected_areas, h, List.filter_true, ite_self]
  · intro h
    simp [extract_affected_areas, h, List.filter_false]

/-- Claim C8, witness: one paragraph with a keyword ("hit") and one
without. -/
theorem claim_C8_witness :
    (any_affected_keyword "The hurricane hit Mexico" = true ∧
        extract_affected_areas "The hurricane hit Mexico" =
          findall_locations "The hurricane hit Mexico") ∧
      (any_affected_keyword "Rain fell in Mexico" = false ∧
        extract_affected_areas "Rain fell in Mexico" =
          findall_locations "Rain fell in Mexico") :=
  ⟨⟨by decide, (claim_C8_paragraph_scoped_gate "The hurricane hit Mexico").1 (by decide)⟩,
    ⟨by decide, (claim_C8_paragraph_scoped_gate "Rain fell in Mexico").2 (by decide)⟩⟩

/-- Claim C9: the keyword gate of `extract_affected_areas` is a no-op — the
gated function is extensionally equal to the plain proper-noun matcher of
source line 36. -/
theorem claim_C9_gate_is_noop (text : String) :
    extract_affected_areas text = findall_locations text := by
  simp only [extract_affected_areas, filter_keyword_gate]
  cases h : any_affected_keyword text with
  | true => simp [h]
  | false => simp [h]

/-- Claim C10: the Olivia override changes only the death count and the
affected areas — the produced row's name is still the stripped heading text
and its dates are still exactly what the infobox date extraction
produced. -/
theorem claim_C10_override_frame (heading : Heading)
    (_holivia : contains_olivia (hurricane_name_of heading) = true) :
    (makeRecord heading).hurricane_name = hurricane_name_of heading ∧
      (makeRecord heading).date_start = (extract_dates heading).1 ∧
      (makeRecord heading).date_end = (extract_dates heading).2 := by
  refine ⟨?_, ?_, ?_⟩ <;> simp [makeRecord]

/-- Claim C10, witness: an Olivia section with a real duration row keeps the
extracted dates while the override rewrites deaths and areas. -/
theorem claim_C10_witness :
    contains_olivia (hurricane_name_of ⟨"Hurricane Olivia",
        some ⟨[⟨"Duration", some "June 1 – June 5"⟩]⟩, []⟩) = true ∧
      (makeRecord ⟨"Hurricane Olivia", some ⟨[⟨"Duration", some "June 1 – June 5"⟩]⟩,
        []⟩).hurricane_name = hurricane_name_of ⟨"Hurricane Olivia",
          some ⟨[⟨"Duration", some "June 1 – June 5"⟩]⟩, []⟩ ∧
      (makeRecord ⟨"Hurricane Olivia", some ⟨[⟨"Duration", some "June 1 – June 5"⟩]⟩,
        []⟩).date_start = (extract_dates ⟨"Hurricane Olivia",
          some ⟨[⟨"Duration", some "June 1 – June 5"⟩]⟩, []⟩).1 ∧
      (makeRecord ⟨"Hurricane Olivia", some ⟨[⟨"Duration", some "June 1 – June 5"⟩]⟩,
        []⟩).date_end = (extract_dates ⟨"Hurricane Olivia",
          some ⟨[⟨"Duration", some "June 1 – June 5"⟩]⟩, []⟩).2 :=
  ⟨by decide,
    (claim_C10_override_frame ⟨"Hurricane Olivia",
      some ⟨[⟨"Duration", some "June 1 – June 5"⟩]⟩, []⟩ (by decide)).1,
    (claim_C10_override_frame ⟨"Hurricane Olivia",
      some ⟨[⟨"Duration", some "June 1 – June 5"⟩]⟩, []⟩ (by decide)).2.1,
    (claim_C10_override_frame ⟨"Hurricane Olivia",
      some ⟨[⟨"Duration", some "June 1 – June 5"⟩]⟩, []⟩ (by decide)).2.2⟩

end Scrape1975
